import Mathlib

/-!
Verification of the natural-language specification of the `azure_api.py`
client against a shallow embedding of its code.

The embedding covers the two layers the claims are about:

* the request executor `AzureAPI.__run_request` (retry loop with exponential
  backoff and response classification), modelled by `runRequest`;
* the artifact resolver `AzureAPI.get_artifact_for_repo_and_branch` and the
  endpoint helpers it calls, modelled over an abstract `Service` oracle that
  plays the role of the decoded JSON responses the executor would return
  (`none` standing for the executor's `None` result), together with an
  explicit trace of the network calls issued.

Python exceptions are modelled by `Except`: `ValueError`, the generic
`Exception` raised when the build search is empty, and the `TypeError`
raised when the code subscripts a `None` value (`'NoneType' object is not
subscriptable`) each get a constructor.  JSON payloads are modelled only to
the depth the code consumes them.
-/

/-- Outcome of one raw HTTP attempt inside `__run_request`: either the
`requests` call raised a transport-level exception, or a response with a
status code and a body arrived.  The body stands for the decoded content;
JSON decoding is treated as the identity. -/
inductive AttemptOutcome where
  | exn
  | resp (status : Nat) (content : String)
deriving DecidableEq

/-- A raised failure of the execution layer, as the specification describes
it.  The embedding of `__run_request` never actually produces one (the code
falls off the end of its retry loop and returns `None`), but the type makes
the specification's "raises" statable. -/
inductive ExecError where
  | timeoutClass
  | failureWithBody (body : String)
deriving DecidableEq

instance {ε α : Type} [DecidableEq ε] [DecidableEq α] : DecidableEq (Except ε α) :=
  fun a b =>
    match a, b with
    | .ok x, .ok y =>
        if h : x = y then isTrue (by rw [h])
        else isFalse (by intro hh; cases hh; exact h rfl)
    | .error x, .error y =>
        if h : x = y then isTrue (by rw [h])
        else isFalse (by intro hh; cases hh; exact h rfl)
    | .ok _, .error _ => isFalse (by intro h; exact Except.noConfusion h)
    | .error _, .ok _ => isFalse (by intro h; exact Except.noConfusion h)

/-- Result of one `__run_request` call: the value returned (or error raised),
the sleep durations performed in order, and how many HTTP requests were
actually sent. -/
structure ExecOutcome where
  result : Except ExecError (Option String)
  sleeps : List Nat
  attempts : Nat
deriving DecidableEq

/-- The retry loop of `AzureAPI.__run_request`, line for line:

* `retry = 0; while retry < self.retries:` — modelled by fuel
  `retries - retry`;
* a 200/201 response returns the (decoded) content;
* a status `>= 500` calls `raise_for_status()`, whose exception is caught by
  the `except` block: `retry += 1` and `time.sleep(2 ** (retry + 1))`;
* any other status logs a warning and returns `None`;
* a transport exception takes the same `except` path as a 5xx;
* when the loop exhausts, control falls off the end of the function and
  Python returns `None`.

`outcomes i` is the outcome of the `i`-th HTTP attempt (0-based). -/
def runRequestAux (outcomes : Nat → AttemptOutcome) :
    Nat → Nat → List Nat → Nat → ExecOutcome
  | 0, _retry, sleeps, attempts => ⟨.ok none, sleeps, attempts⟩
  | fuel + 1, retry, sleeps, attempts =>
    match outcomes attempts with
    | .exn =>
        runRequestAux outcomes fuel (retry + 1)
          (sleeps ++ [2 ^ (retry + 2)]) (attempts + 1)
    | .resp s c =>
        if s = 200 ∨ s = 201 then ⟨.ok (some c), sleeps, attempts + 1⟩
        else if 500 ≤ s then
          runRequestAux outcomes fuel (retry + 1)
            (sleeps ++ [2 ^ (retry + 2)]) (attempts + 1)
        else ⟨.ok none, sleeps, attempts + 1⟩

/-- `AzureAPI.__run_request` with a given retry budget (`self.retries`,
default 3). -/
def runRequest (retries : Nat) (outcomes : Nat → AttemptOutcome) : ExecOutcome :=
  runRequestAux outcomes retries 0 [] 0

/-- `AzureAPI._run_get_request`: delegates to `__run_request` with
`requests.get`; the classification logic is identical for every verb. -/
def run_get_request (retries : Nat) (outcomes : Nat → AttemptOutcome) : ExecOutcome :=
  runRequest retries outcomes

/-- `AzureAPI._run_post_request`: delegates to `__run_request` with
`requests.post`; the body is serialized before the loop and plays no role in
response classification. -/
def run_post_request (retries : Nat) (outcomes : Nat → AttemptOutcome) : ExecOutcome :=
  runRequest retries outcomes

/-- `AzureAPI._run_patch_request`: delegates to `__run_request` with
`requests.patch`. -/
def run_patch_request (retries : Nat) (outcomes : Nat → AttemptOutcome) : ExecOutcome :=
  runRequest retries outcomes

/-- An attempt outcome that takes the `except` path of the retry loop:
a transport exception, or a 5xx response (whose `raise_for_status()`
throws). -/
def isRetryable : AttemptOutcome → Bool
  | .exn => true
  | .resp s _ => 500 ≤ s

/-- An attempt sequence drawn from a finite script, transport failures
beyond its end. -/
def seqOutcomes (l : List AttemptOutcome) : Nat → AttemptOutcome :=
  fun i => l.getD i .exn

/-- The sleep durations of a run that takes the `except` path `fuel` times
starting at retry counter `retry`: `2^(retry+2), 2^(retry+3), …`. -/
def sleepList (retry : Nat) : Nat → List Nat
  | 0 => []
  | fuel + 1 => 2 ^ (retry + 2) :: sleepList (retry + 1) fuel

theorem sleepList_eq_map :
    ∀ (fuel retry : Nat),
      sleepList retry fuel = (List.range fuel).map (fun j => 2 ^ (retry + j + 2)) := by
  intro fuel
  induction fuel with
  | zero => intro retry; simp [sleepList]
  | succ n ih =>
    intro retry
    rw [sleepList, ih (retry + 1), List.range_succ_eq_map, List.map_cons,
      List.map_map]
    refine congrArg₂ List.cons (by norm_num) (List.map_congr_left ?_)
    intro j _
    show 2 ^ (retry + 1 + j + 2) = 2 ^ (retry + (j + 1) + 2)
    congr 1
    omega

/-- If every attempt the loop will make is retryable, the loop runs its full
budget, sleeping `2^(retry+2)` after the attempt made at retry counter
`retry`, and then falls off the end returning `None`. -/
theorem runRequestAux_all_retryable (outcomes : Nat → AttemptOutcome) :
    ∀ (fuel retry attempts : Nat) (sleeps : List Nat),
      (∀ j < fuel, isRetryable (outcomes (attempts + j)) = true) →
      runRequestAux outcomes fuel retry sleeps attempts =
        ⟨.ok none, sleeps ++ sleepList retry fuel, attempts + fuel⟩ := by
  intro fuel
  induction fuel with
  | zero => intro retry attempts sleeps _; simp [runRequestAux, sleepList]
  | succ n ih =>
    intro retry attempts sleeps h
    have h0 : isRetryable (outcomes attempts) = true := by
      have := h 0 (Nat.succ_pos n); simpa using this
    have hrest : ∀ j < n, isRetryable (outcomes (attempts + 1 + j)) = true := by
      intro j hj
      have := h (j + 1) (Nat.succ_lt_succ hj)
      simpa [Nat.add_assoc, Nat.add_comm 1 j] using this
    have hfin : (sleeps ++ [2 ^ (retry + 2)]) ++ sleepList (retry + 1) n =
        sleeps ++ sleepList retry (n + 1) := by
      rw [List.append_assoc, List.singleton_append]
      rfl
    cases hout : outcomes attempts with
    | exn =>
      rw [runRequestAux]
      simp only [hout]
      rw [ih (retry + 1) (attempts + 1) (sleeps ++ [2 ^ (retry + 2)]) hrest]
      rw [ExecOutcome.mk.injEq]
      exact ⟨rfl, hfin, by omega⟩
    | resp s c =>
      have hs : 500 ≤ s := by
        rw [hout] at h0; simpa [isRetryable] using h0
      have hns : ¬ (s = 200 ∨ s = 201) := by
        rintro (rfl | rfl) <;> omega
      rw [runRequestAux]
      simp only [hout, if_neg hns, if_pos hs]
      rw [ih (retry + 1) (attempts + 1) (sleeps ++ [2 ^ (retry + 2)]) hrest]
      rw [ExecOutcome.mk.injEq]
      exact ⟨rfl, hfin, by omega⟩

/-- C1, as the specification states it, is false of the code: with the
default budget of 3 retries and every attempt answered by a 500 response
(body `"oops"`), all attempts are exhausted without a success and without a
4xx, yet `__run_request` raises nothing — it returns `None` (the function
falls off the end of its `while` loop; the raise-on-exhaustion behaviour the
specification describes exists only in `download_artifact`). -/
theorem C1_counterexample :
    (runRequest 3 (fun _ => AttemptOutcome.resp 500 "oops")).result =
      Except.ok none ∧
    ¬ ∃ e : ExecError,
      (runRequest 3 (fun _ => AttemptOutcome.resp 500 "oops")).result =
        Except.error e := by
  constructor
  · rfl
  · rintro ⟨e, h⟩
    have : Except.ok (ε := ExecError) (none : Option String) = Except.error e := by
      rw [← h]; rfl
    exact Except.noConfusion this

/-- C1 (amended): if every attempt the executor makes is retryable (transport
exception or 5xx) so the budget is exhausted with no success and no 4xx,
`__run_request` returns `None` — it does not raise — after sending exactly
`retries` requests and sleeping `4, 8, …, 2^(retries+1)` seconds, one sleep
after every attempt including the last. -/
theorem C1_exhaustion_returns_none (retries : Nat) (outcomes : Nat → AttemptOutcome)
    (h : ∀ i < retries, isRetryable (outcomes i) = true) :
    runRequest retries outcomes =
      ⟨.ok none, (List.range retries).map (fun j => 2 ^ (j + 2)), retries⟩ := by
  unfold runRequest
  rw [runRequestAux_all_retryable outcomes retries 0 0 [] (by simpa using h)]
  rw [sleepList_eq_map]
  simp

/-- Witness for `C1_exhaustion_returns_none` at a concrete input: three
transport timeouts in a row. -/
theorem C1_witness :
    (∀ i < 3, isRetryable ((fun _ => AttemptOutcome.exn) i) = true) ∧
    runRequest 3 (fun _ => AttemptOutcome.exn) =
      ⟨.ok none, [4, 8, 16], 3⟩ := by
  refine ⟨by decide, ?_⟩
  have := C1_exhaustion_returns_none 3 (fun _ => AttemptOutcome.exn) (by decide)
  simpa using this

/-- C7, as stated, is false of the code on its write-type half: a POST
answered by a definitive 404 carrying the service's error body is not
surfaced as a failure — `_run_post_request` goes through the very same
`__run_request` classification, which logs a warning and returns `None`. -/
theorem C7_counterexample :
    (run_post_request 3 (seqOutcomes [AttemptOutcome.resp 404 "errbody"])).result =
      Except.ok none ∧
    ¬ ∃ e : ExecError,
      (run_post_request 3 (seqOutcomes [AttemptOutcome.resp 404 "errbody"])).result =
        Except.error e := by
  constructor
  · rfl
  · rintro ⟨e, h⟩
    have : Except.ok (ε := ExecError) (none : Option String) = Except.error e := by
      rw [← h]; rfl
    exact Except.noConfusion this

/-- C7 (amended): a definitive non-success, non-5xx response (e.g. 404) is
never retried; for every verb — GET, POST and PATCH alike — the executor
returns `None` ("no result") immediately, after a single request, with zero
sleeps.  The 4xx body is only logged, never surfaced to the caller. -/
theorem C7_no_retry_on_4xx (retries : Nat) (outcomes : Nat → AttemptOutcome)
    (s : Nat) (c : String)
    (hr : 0 < retries) (h0 : outcomes 0 = .resp s c)
    (hns : ¬ (s = 200 ∨ s = 201)) (hlt : s < 500) :
    run_get_request retries outcomes = ⟨.ok none, [], 1⟩ ∧
    run_post_request retries outcomes = ⟨.ok none, [], 1⟩ ∧
    run_patch_request retries outcomes = ⟨.ok none, [], 1⟩ := by
  have key : runRequest retries outcomes = ⟨.ok none, [], 1⟩ := by
    unfold runRequest
    obtain ⟨n, rfl⟩ := Nat.exists_eq_succ_of_ne_zero (Nat.pos_iff_ne_zero.mp hr)
    rw [runRequestAux]
    simp only [h0, if_neg hns, if_neg (by omega : ¬ 500 ≤ s)]
  exact ⟨key, key, key⟩

/-- Witness for `C7_no_retry_on_4xx`: a 404 on the first attempt with the
default budget of 3. -/
theorem C7_witness :
    run_get_request 3 (seqOutcomes [AttemptOutcome.resp 404 "nope"]) =
      ⟨.ok none, [], 1⟩ ∧
    run_post_request 3 (seqOutcomes [AttemptOutcome.resp 404 "nope"]) =
      ⟨.ok none, [], 1⟩ := by
  have h := C7_no_retry_on_4xx 3 (seqOutcomes [AttemptOutcome.resp 404 "nope"])
    404 "nope" (by decide) (by rfl) (by decide) (by decide)
  exact ⟨h.1, h.2.1⟩

/-- C9: for a request answered 500, 500, then 200, the executor (default
budget 3) returns the 200 payload after three attempts and sleeps exactly
twice in between, 4 seconds then 8 seconds — strictly increasing exponential
backoff `2^(attempt+1)`. -/
theorem C9_backoff_sequence (b1 b2 body : String) :
    runRequest 3 (seqOutcomes
        [AttemptOutcome.resp 500 b1, AttemptOutcome.resp 500 b2,
         AttemptOutcome.resp 200 body]) =
      ⟨.ok (some body), [4, 8], 3⟩ ∧ (4 : Nat) < 8 := by
  constructor
  · show runRequestAux _ 3 0 [] 0 = _
    rw [runRequestAux]
    simp only [seqOutcomes, List.getD]
    norm_num
    rw [runRequestAux]
    simp only [seqOutcomes, List.getD]
    norm_num
    rw [runRequestAux]
    simp only [seqOutcomes, List.getD]
    norm_num
  · decide

/-! ## The artifact resolver and its endpoint helpers

The resolver sits on top of the executor: every `_run_get_request` call
returns either a decoded JSON value or `None` (the executor's 4xx result).
A `Service` oracle supplies those responses, decoded to the depth the code
consumes them; each operation additionally records the network calls it
issued. -/

/-- The slice of a repository JSON object the resolver reads
(`repo_response_dict['id']`). -/
structure Repository where
  id : String
deriving DecidableEq

/-- The slice of a pull-request JSON object the resolver reads
(`pr['pullRequestId']`). -/
structure PullRequest where
  pullRequestId : Nat
deriving DecidableEq

/-- The pull-request search response: `res['value']` is a list. -/
structure PRSearchResp where
  value : List PullRequest
deriving DecidableEq

/-- The slice of a build JSON object the resolver reads: `build['id']` and
`build['buildNumber']`. -/
structure Build where
  id : String
  buildNumber : String
deriving DecidableEq

/-- The build search response: `builds['value']` is a list. -/
structure BuildsResp where
  value : List Build
deriving DecidableEq

/-- The slice of an artifact JSON object the resolver reads:
`artifact['resource']['downloadUrl']`. -/
structure ArtifactResource where
  downloadUrl : String
deriving DecidableEq

structure Artifact where
  resource : ArtifactResource
deriving DecidableEq

/-- The query-parameter dictionary `get_top_n_builds_for_repo_and_branch`
passes to `build/builds` (the constant `repositoryType`/`queryOrder`
entries are omitted; `buildNumber` is the already wildcard-suffixed
string). -/
structure BuildQuery where
  reasonFilter : String
  statusFilter : String
  resultFilter : String
  top : Nat
  branchName : String
  repositoryId : String
  buildNumber : String
deriving DecidableEq

/-- One network call issued by an operation, with the request data that the
claims talk about. -/
inductive ApiCall where
  | repoByName (name : String)
  | prSearch (repoId sourceRefName : String)
  | buildsSearch (q : BuildQuery)
  | artifactDetails (buildId artifactName : String)
  | branchByName (repoId filter : String)
  | fileRead (repoId path branch : String)
  | definitionByName (name : String)
deriving DecidableEq

/-- The service side of every GET the resolver layer performs: what the
executor would hand back after decoding. `none` is the executor's `None`
result (a definitive non-success such as 404, or an exhausted retry
budget). Responses of the pass-through helpers are abstracted to opaque
strings. -/
structure Service where
  repoLookup : String → Option Repository
  prSearch : String → String → Option PRSearchResp
  buildSearch : BuildQuery → Option BuildsResp
  artifactLookup : String → String → Option Artifact
  branchLookup : String → String → Option String
  fileLookup : String → String → String → Option String
  definitionLookup : String → Option String

/-- A raised Python exception of the resolver layer. -/
inductive ApiError where
  /-- `raise ValueError(msg)` -/
  | valueError (msg : String)
  /-- `raise Exception(f"No builds for given parameters | branch: .. | repo: ..")` -/
  | noBuilds (branch repoId : String)
  /-- `TypeError` from subscripting (or calling a method on) a `None`
  value, e.g. `repo_response_dict['id']` when the lookup returned `None`. -/
  | noneSubscript
deriving DecidableEq

/-- `AzureAPI.get_repository_by_name`: rejects an empty name, otherwise one
GET to `git/repositories/{name}`. -/
def get_repository_by_name (svc : Service) (name : String) :
    Except ApiError (Option Repository) × List ApiCall :=
  if name = "" then
    (.error (.valueError ("Cannot get repository by name for - " ++ name)), [])
  else
    (.ok (svc.repoLookup name), [.repoByName name])

/-- `AzureAPI.get_pull_request_id_by_branch`: rejects an empty branch and
`master`, otherwise one GET to `git/repositories/{repo_id}/pullrequests`
with `searchCriteria.sourceRefName = refs/heads/{branch}`; returns the
first element of `res['value']` or `None` when the list is empty.
Subscripting a `None` response raises. -/
def get_pull_request_id_by_branch (svc : Service) (repo_id branch : String) :
    Except ApiError (Option PullRequest) × List ApiCall :=
  if branch = "" ∨ branch = "master" then
    (.error (.valueError ("invalid pr with source branch of " ++ branch)), [])
  else
    match svc.prSearch repo_id ("refs/heads/" ++ branch) with
    | none => (.error .noneSubscript, [.prSearch repo_id ("refs/heads/" ++ branch)])
    | some res => (.ok res.value.head?, [.prSearch repo_id ("refs/heads/" ++ branch)])

/-- The parameter dictionary built inside
`get_top_n_builds_for_repo_and_branch`. -/
def buildQueryFor (repo_id branch : String) (is_pr : Bool) (n : Nat)
    (build_number : String) : BuildQuery :=
  { reasonFilter := if is_pr then "pullRequest" else "batchedCI,manual,individualCI"
    statusFilter := if is_pr then "active" else "completed"
    resultFilter := if is_pr then "" else "succeeded,partiallySucceeded"
    top := n
    branchName := if is_pr then branch else "refs/heads/" ++ branch
    repositoryId := repo_id
    buildNumber := build_number ++ "*" }

/-- `AzureAPI.get_top_n_builds_for_repo_and_branch`: rejects an empty repo
id, otherwise one GET to `build/builds`; an empty (or missing) `value`
raises the generic no-builds exception, a `None` response makes
`builds.get('value')` raise. -/
def get_top_n_builds_for_repo_and_branch (svc : Service) (repo_id branch : String)
    (is_pr : Bool) (n : Nat) (build_number : String) :
    Except ApiError (List Build) × List ApiCall :=
  if repo_id = "" then
    (.error (.valueError ("Invalid repo id - " ++ repo_id)), [])
  else
    match svc.buildSearch (buildQueryFor repo_id branch is_pr n build_number) with
    | none =>
        (.error .noneSubscript,
         [.buildsSearch (buildQueryFor repo_id branch is_pr n build_number)])
    | some res =>
        if res.value = [] then
          (.error (.noBuilds branch repo_id),
           [.buildsSearch (buildQueryFor repo_id branch is_pr n build_number)])
        else
          (.ok res.value,
           [.buildsSearch (buildQueryFor repo_id branch is_pr n build_number)])

/-- `AzureAPI.get_artifact_details`: rejects an empty build id, then an
empty artifact name, otherwise one GET to
`build/builds/{build_id}/artifacts` filtered by the artifact name. -/
def get_artifact_details (svc : Service) (build_id artifact_name : String) :
    Except ApiError (Option Artifact) × List ApiCall :=
  if build_id = "" then
    (.error (.valueError ("Invalid build id - " ++ build_id)), [])
  else if artifact_name = "" then
    (.error (.valueError ("Invalid artifact name - " ++ artifact_name)), [])
  else
    (.ok (svc.artifactLookup build_id artifact_name),
     [.artifactDetails build_id artifact_name])

/-- `AzureAPI.get_branch_by_name`: rejects an empty branch name, otherwise
one GET to `git/repositories/{repo_id}/refs` with filter
`heads/{branch_name}`. -/
def get_branch_by_name (svc : Service) (repo_id branch_name : String) :
    Except ApiError (Option String) × List ApiCall :=
  if branch_name = "" then
    (.error (.valueError "Branch name cannot be empty"), [])
  else
    (.ok (svc.branchLookup repo_id ("heads/" ++ branch_name)),
     [.branchByName repo_id ("heads/" ++ branch_name)])

/-- `AzureAPI.read_file_from_repo`: rejects an empty file path, otherwise
one GET to `git/repositories/{repo_id}/items`. -/
def read_file_from_repo (svc : Service) (repo_id path_to_file branch_name : String) :
    Except ApiError (Option String) × List ApiCall :=
  if path_to_file = "" then
    (.error (.valueError "File path cannot be empty"), [])
  else
    (.ok (svc.fileLookup repo_id path_to_file branch_name),
     [.fileRead repo_id path_to_file branch_name])

/-- `AzureAPI.get_definition_by_name`: rejects an empty name, otherwise one
GET to `build/definitions`. -/
def get_definition_by_name (svc : Service) (name : String) :
    Except ApiError (Option String) × List ApiCall :=
  if name = "" then
    (.error (.valueError "Definition name cannot be empty"), [])
  else
    (.ok (svc.definitionLookup name), [.definitionByName name])

/-- `build['buildNumber'].split('-')[0]`: the leading segment of the build
number before the first `-` (the whole string when there is no `-`), which
is exactly what Python's `split` puts at index 0. -/
def versionOfBuildNumber (s : String) : String :=
  String.mk (s.data.takeWhile (fun c => c != '-'))

/-- The `for build in top_builds` loop of `get_artifact_for_repo_and_branch`:
for each build, fetch its artifact details; on the first truthy artifact
return `(build['buildNumber'].split('-')[0],
artifact['resource']['downloadUrl'])`; if the loop finishes, `(None, None)`. -/
def scanBuildsForArtifact (svc : Service) (artifact_name : String) :
    List Build → Except ApiError (Option String × Option String) × List ApiCall
  | [] => (.ok (none, none), [])
  | b :: rest =>
    match get_artifact_details svc b.id artifact_name with
    | (.error e, t) => (.error e, t)
    | (.ok none, t) =>
        ((scanBuildsForArtifact svc artifact_name rest).1,
         t ++ (scanBuildsForArtifact svc artifact_name rest).2)
    | (.ok (some a), t) =>
        (.ok (some (versionOfBuildNumber b.buildNumber),
              some a.resource.downloadUrl), t)

/-- The tail of `get_artifact_for_repo_and_branch` once the branch reference
and build-number filter are settled: the `get_top_n_builds_for_repo_and_branch`
call followed by the artifact scan.  (The Python `build_version_prefix or ""`
is the identity on strings: an empty string is falsy and is replaced by
`""`.) -/
def searchBuildsAndScan (svc : Service) (artifact_name repo_id branch : String)
    (is_pr : Bool) (build_version_pre : String) (n : Nat) :
    Except ApiError (Option String × Option String) × List ApiCall :=
  match get_top_n_builds_for_repo_and_branch svc repo_id branch is_pr n
      build_version_pre with
  | (.error e, t) => (.error e, t)
  | (.ok builds, t) =>
      ((scanBuildsForArtifact svc artifact_name builds).1,
       t ++ (scanBuildsForArtifact svc artifact_name builds).2)

/-- `AzureAPI.get_artifact_for_repo_and_branch` (the renamed
`build_version_pre` parameter is the source's `build_version_prefix`):
resolve the repository, optionally rewrite the branch through the active
pull request (subscripting the PR lookup's `None` raises a `TypeError`),
search the top-N builds, and scan them for the artifact. -/
def get_artifact_for_repo_and_branch (svc : Service)
    (artifact_name repository branch : String) (is_pr : Bool)
    (build_version_pre : String) (top_n_builds_to_check : Nat) :
    Except ApiError (Option String × Option String) × List ApiCall :=
  match get_repository_by_name svc repository with
  | (.error e, t1) => (.error e, t1)
  | (.ok none, t1) => (.error .noneSubscript, t1)
  | (.ok (some repo), t1) =>
    if is_pr then
      match get_pull_request_id_by_branch svc repo.id branch with
      | (.error e, t2) => (.error e, t1 ++ t2)
      | (.ok none, t2) => (.error .noneSubscript, t1 ++ t2)
      | (.ok (some pr), t2) =>
          ((searchBuildsAndScan svc artifact_name repo.id
              ("refs/pull/" ++ toString pr.pullRequestId ++ "/merge") true ""
              top_n_builds_to_check).1,
           t1 ++ t2 ++ (searchBuildsAndScan svc artifact_name repo.id
              ("refs/pull/" ++ toString pr.pullRequestId ++ "/merge") true ""
              top_n_builds_to_check).2)
    else
      ((searchBuildsAndScan svc artifact_name repo.id branch false
          build_version_pre top_n_builds_to_check).1,
       t1 ++ (searchBuildsAndScan svc artifact_name repo.id branch false
          build_version_pre top_n_builds_to_check).2)

/-- Is this call an artifact-existence check
(`build/builds/{id}/artifacts`)? -/
def isArtifactCall : ApiCall → Bool
  | .artifactDetails _ _ => true
  | _ => false

/-- Number of artifact-existence calls in a trace. -/
def countArtifactCalls (t : List ApiCall) : Nat :=
  (t.filter isArtifactCall).length

/-! ### A concrete service environment for witnesses and counterexamples

Repository `repoA` (id `rid-1`) has ten completed builds, most recent
first, and the artifact `X` exists only on the fifth-ranked one;
`feature/x` has an active pull request with id 42.  Repository `repoB`
(id `rid-2`) exists but its build search matches zero builds.  Any other
repository name is unknown to the service (its lookup 404s, i.e. the
executor returns `None`). -/

def buildsA : List Build :=
  [⟨"b1", "1.0.0-a1"⟩, ⟨"b2", "1.0.1-a2"⟩, ⟨"b3", "1.1.0-a3"⟩,
   ⟨"b4", "1.2.0-a4"⟩, ⟨"b5", "1.2.3-abcdef"⟩, ⟨"b6", "1.2.4-a6"⟩,
   ⟨"b7", "1.3.0-a7"⟩, ⟨"b8", "1.3.1-a8"⟩, ⟨"b9", "1.4.0-a9"⟩,
   ⟨"b10", "1.5.0-b0"⟩]

def svcA : Service :=
  { repoLookup := fun nm =>
      if nm = "repoA" then some ⟨"rid-1"⟩
      else if nm = "repoB" then some ⟨"rid-2"⟩
      else none
    prSearch := fun rid src =>
      if rid = "rid-1" && src = "refs/heads/feature/x" then some ⟨[⟨42⟩]⟩
      else some ⟨[]⟩
    buildSearch := fun q =>
      if q.repositoryId = "rid-1" then some ⟨buildsA⟩
      else if q.repositoryId = "rid-2" then some ⟨[]⟩
      else none
    artifactLookup := fun bid an =>
      if bid = "b5" && an = "X" then some ⟨⟨"https://example.test/dl/X"⟩⟩
      else none
    branchLookup := fun _ _ => some "refsPayload"
    fileLookup := fun _ _ _ => some "fileContent"
    definitionLookup := fun _ => some "definitionPayload" }

/-! ### Reduction lemmas for the resolver pipeline -/

theorem get_artifact_details_valid (svc : Service) (bid an : String)
    (hb : bid ≠ "") (han : an ≠ "") :
    get_artifact_details svc bid an =
      (.ok (svc.artifactLookup bid an), [.artifactDetails bid an]) := by
  unfold get_artifact_details
  rw [if_neg hb, if_neg han]

theorem scan_cons_none (svc : Service) (an : String) (b : Build) (rest : List Build)
    (hb : b.id ≠ "") (han : an ≠ "") (hnone : svc.artifactLookup b.id an = none) :
    scanBuildsForArtifact svc an (b :: rest) =
      ((scanBuildsForArtifact svc an rest).1,
       ApiCall.artifactDetails b.id an :: (scanBuildsForArtifact svc an rest).2) := by
  simp only [scanBuildsForArtifact, get_artifact_details_valid svc b.id an hb han,
    hnone]
  rfl

theorem scan_cons_found (svc : Service) (an : String) (b : Build) (rest : List Build)
    (a : Artifact) (hb : b.id ≠ "") (han : an ≠ "")
    (hsome : svc.artifactLookup b.id an = some a) :
    scanBuildsForArtifact svc an (b :: rest) =
      (.ok (some (versionOfBuildNumber b.buildNumber),
            some a.resource.downloadUrl),
       [.artifactDetails b.id an]) := by
  simp only [scanBuildsForArtifact, get_artifact_details_valid svc b.id an hb han,
    hsome]

theorem scan_all_none (svc : Service) (an : String) (han : an ≠ "") :
    ∀ bs : List Build,
      (∀ b ∈ bs, b.id ≠ "" ∧ svc.artifactLookup b.id an = none) →
      scanBuildsForArtifact svc an bs =
        (.ok (none, none), bs.map (fun b => ApiCall.artifactDetails b.id an)) := by
  intro bs
  induction bs with
  | nil => intro _; rfl
  | cons b rest ih =>
    intro h
    have hb := h b (List.mem_cons_self b rest)
    rw [scan_cons_none svc an b rest hb.1 han hb.2,
      ih (fun b' hb' => h b' (List.mem_cons_of_mem b hb'))]
    rfl

theorem scan_first_match (svc : Service) (an : String) (b : Build) (a : Artifact)
    (han : an ≠ "") (hb : b.id ≠ "") (hsome : svc.artifactLookup b.id an = some a) :
    ∀ (pre rest : List Build),
      (∀ b' ∈ pre, b'.id ≠ "" ∧ svc.artifactLookup b'.id an = none) →
      scanBuildsForArtifact svc an (pre ++ b :: rest) =
        (.ok (some (versionOfBuildNumber b.buildNumber),
              some a.resource.downloadUrl),
         pre.map (fun b' => ApiCall.artifactDetails b'.id an) ++
           [ApiCall.artifactDetails b.id an]) := by
  intro pre
  induction pre with
  | nil =>
    intro rest _
    simpa using scan_cons_found svc an b rest a hb han hsome
  | cons p ps ih =>
    intro rest h
    have hp := h p (List.mem_cons_self p ps)
    rw [List.cons_append, scan_cons_none svc an p (ps ++ b :: rest) hp.1 han hp.2,
      ih rest (fun b' hb' => h b' (List.mem_cons_of_mem p hb'))]
    rfl

theorem scan_ok_shape (svc : Service) (an : String) :
    ∀ (bs : List Build) (p : Option String × Option String),
      (scanBuildsForArtifact svc an bs).1 = .ok p →
      p = (none, none) ∨ ∃ v u, p = (some v, some u) := by
  intro bs
  induction bs with
  | nil =>
    intro p h
    left
    have : (Except.ok (ε := ApiError) ((none, none) :
        Option String × Option String)) = .ok p := h
    cases this
    rfl
  | cons b rest ih =>
    intro p h
    rcases hga : get_artifact_details svc b.id an with ⟨r, t⟩
    rcases r with e | o
    · rw [scanBuildsForArtifact, hga] at h
      exact absurd h (by simp)
    · rcases o with _ | a
      · rw [scanBuildsForArtifact, hga] at h
        exact ih p h
      · rw [scanBuildsForArtifact, hga] at h
        right
        refine ⟨versionOfBuildNumber b.buildNumber, a.resource.downloadUrl, ?_⟩
        cases h
        rfl

theorem scan_trace_artifact_only (svc : Service) (an : String) :
    ∀ bs : List Build, ∀ c ∈ (scanBuildsForArtifact svc an bs).2,
      isArtifactCall c = true := by
  intro bs
  induction bs with
  | nil => intro c hc; simp [scanBuildsForArtifact] at hc
  | cons b rest ih =>
    intro c hc
    have hdet : ∀ c' ∈ (get_artifact_details svc b.id an).2,
        isArtifactCall c' = true := by
      intro c' hc'
      unfold get_artifact_details at hc'
      by_cases h1 : b.id = ""
      · simp [h1] at hc'
      · by_cases h2 : an = ""
        · simp [h1, h2] at hc'
        · simp [h1, h2] at hc'
          simp [hc', isArtifactCall]
    rcases hga : get_artifact_details svc b.id an with ⟨r, t⟩
    rw [hga] at hdet
    rcases r with e | o
    · rw [scanBuildsForArtifact, hga] at hc
      exact hdet c hc
    · rcases o with _ | a
      · rw [scanBuildsForArtifact, hga] at hc
        simp only at hc
        rcases List.mem_append.mp hc with h | h
        · exact hdet c h
        · exact ih c h
      · rw [scanBuildsForArtifact, hga] at hc
        exact hdet c hc

theorem resolver_nonpr (svc : Service) (an repo br vp : String) (n : Nat)
    (ro : Repository) (hrepo : repo ≠ "") (hlook : svc.repoLookup repo = some ro) :
    get_artifact_for_repo_and_branch svc an repo br false vp n =
      ((searchBuildsAndScan svc an ro.id br false vp n).1,
       ApiCall.repoByName repo :: (searchBuildsAndScan svc an ro.id br false vp n).2) := by
  unfold get_artifact_for_repo_and_branch get_repository_by_name
  rw [if_neg hrepo, hlook]
  rfl

theorem resolver_pr (svc : Service) (an repo br vp : String) (n : Nat)
    (ro : Repository) (pr : PullRequest) (prs : List PullRequest)
    (hrepo : repo ≠ "") (hlook : svc.repoLookup repo = some ro)
    (hbr : ¬ (br = "" ∨ br = "master"))
    (hpr : svc.prSearch ro.id ("refs/heads/" ++ br) = some ⟨pr :: prs⟩) :
    get_artifact_for_repo_and_branch svc an repo br true vp n =
      ((searchBuildsAndScan svc an ro.id
          ("refs/pull/" ++ toString pr.pullRequestId ++ "/merge") true "" n).1,
       ApiCall.repoByName repo :: ApiCall.prSearch ro.id ("refs/heads/" ++ br) ::
         (searchBuildsAndScan svc an ro.id
            ("refs/pull/" ++ toString pr.pullRequestId ++ "/merge") true "" n).2) := by
  have hq : get_pull_request_id_by_branch svc ro.id br =
      (Except.ok (some pr), [ApiCall.prSearch ro.id ("refs/heads/" ++ br)]) := by
    unfold get_pull_request_id_by_branch
    rw [if_neg hbr, hpr]
    rfl
  unfold get_artifact_for_repo_and_branch get_repository_by_name
  rw [if_neg hrepo, hlook]
  simp [hq]

theorem resolver_pr_none (svc : Service) (an repo br vp : String) (n : Nat)
    (ro : Repository)
    (hrepo : repo ≠ "") (hlook : svc.repoLookup repo = some ro)
    (hbr : ¬ (br = "" ∨ br = "master"))
    (hpr : svc.prSearch ro.id ("refs/heads/" ++ br) = some ⟨[]⟩) :
    get_artifact_for_repo_and_branch svc an repo br true vp n =
      (.error .noneSubscript,
       [ApiCall.repoByName repo, ApiCall.prSearch ro.id ("refs/heads/" ++ br)]) := by
  have hq : get_pull_request_id_by_branch svc ro.id br =
      (Except.ok none, [ApiCall.prSearch ro.id ("refs/heads/" ++ br)]) := by
    unfold get_pull_request_id_by_branch
    rw [if_neg hbr, hpr]
    rfl
  unfold get_artifact_for_repo_and_branch get_repository_by_name
  rw [if_neg hrepo, hlook]
  simp [hq]

theorem search_zero_builds (svc : Service) (an repo_id br vp : String)
    (is_pr : Bool) (n : Nat) (hid : repo_id ≠ "")
    (hbs : svc.buildSearch (buildQueryFor repo_id br is_pr n vp) = some ⟨[]⟩) :
    searchBuildsAndScan svc an repo_id br is_pr vp n =
      (.error (.noBuilds br repo_id),
       [ApiCall.buildsSearch (buildQueryFor repo_id br is_pr n vp)]) := by
  unfold searchBuildsAndScan get_top_n_builds_for_repo_and_branch
  rw [if_neg hid, hbs]
  rfl

theorem search_some_builds (svc : Service) (an repo_id br vp : String)
    (is_pr : Bool) (n : Nat) (bs : List Build) (hid : repo_id ≠ "")
    (hbs : svc.buildSearch (buildQueryFor repo_id br is_pr n vp) = some ⟨bs⟩)
    (hne : bs ≠ []) :
    searchBuildsAndScan svc an repo_id br is_pr vp n =
      ((scanBuildsForArtifact svc an bs).1,
       ApiCall.buildsSearch (buildQueryFor repo_id br is_pr n vp) ::
         (scanBuildsForArtifact svc an bs).2) := by
  unfold searchBuildsAndScan get_top_n_builds_for_repo_and_branch
  rw [if_neg hid, hbs]
  simp only [if_neg hne]
  rfl

theorem search_ok_shape (svc : Service) (an repo_id br vp : String)
    (is_pr : Bool) (n : Nat) (p : Option String × Option String)
    (h : (searchBuildsAndScan svc an repo_id br is_pr vp n).1 = .ok p) :
    p = (none, none) ∨ ∃ v u, p = (some v, some u) := by
  unfold searchBuildsAndScan at h
  rcases htop : get_top_n_builds_for_repo_and_branch svc repo_id br is_pr n vp
    with ⟨r, t⟩
  rw [htop] at h
  rcases r with e | builds
  · exact absurd h (by simp)
  · exact scan_ok_shape svc an builds p h

theorem countArtifactCalls_nil : countArtifactCalls [] = 0 := rfl

theorem countArtifactCalls_cons_other (c : ApiCall) (t : List ApiCall)
    (hc : isArtifactCall c = false) :
    countArtifactCalls (c :: t) = countArtifactCalls t := by
  simp [countArtifactCalls, List.filter, hc]

theorem countArtifactCalls_append (t1 t2 : List ApiCall) :
    countArtifactCalls (t1 ++ t2) = countArtifactCalls t1 + countArtifactCalls t2 := by
  simp [countArtifactCalls, List.filter_append]

theorem countArtifactCalls_map_details (l : List Build) (an : String) :
    countArtifactCalls (l.map (fun b => ApiCall.artifactDetails b.id an)) = l.length := by
  induction l with
  | nil => rfl
  | cons b rest ih =>
    simp only [List.map_cons]
    rw [show countArtifactCalls (ApiCall.artifactDetails b.id an ::
        rest.map (fun b => ApiCall.artifactDetails b.id an)) =
      1 + countArtifactCalls (rest.map (fun b => ApiCall.artifactDetails b.id an))
      from by simp [countArtifactCalls, List.filter, isArtifactCall, Nat.add_comm]]
    rw [ih]
    simp [Nat.add_comm]

/-! ## Claims about the resolver -/

/-- C2: the claim says that in PR mode, when no active pull request matches
the branch, the resolver terminates with the normal "no result" outcome and
does not raise.  The code instead crashes: `get_pull_request_id_by_branch`
deliberately returns `None` for "no active PR", but the caller immediately
evaluates `pr['pullRequestId']`, a `TypeError` on `None`.  Concretely, with
`repoA` resolved and no active PR on `feature/y`, the resolver raises the
none-subscript error instead of returning `(None, None)`. -/
theorem C2_no_active_pr_crashes :
    (get_artifact_for_repo_and_branch svcA "X" "repoA" "feature/y" true "*" 10).1 =
      Except.error ApiError.noneSubscript := by
  decide

/-- The trace of the C3 witness run: repository lookup, build search, then
artifact checks up to the first match on `b5`. -/
def traceC3 : List ApiCall :=
  [.repoByName "repoA", .buildsSearch (buildQueryFor "rid-1" "main" false 10 "*"),
   .artifactDetails "b1" "X", .artifactDetails "b2" "X", .artifactDetails "b3" "X",
   .artifactDetails "b4" "X", .artifactDetails "b5" "X"]

/-- C3: every `get_artifact_for_repo_and_branch` call that returns, returns
either a pair with both the version and the download URL present or
`(None, None)` — never a URL without a version; and when every build of a
well-formed search window lacks the requested artifact, the call returns
`(None, None)` without raising. -/
theorem C3_result_shape :
    (∀ (svc : Service) (an repo br vp : String) (ip : Bool) (n : Nat)
       (p : Option String × Option String) (t : List ApiCall),
       get_artifact_for_repo_and_branch svc an repo br ip vp n = (.ok p, t) →
       p = (none, none) ∨ ∃ v u, p = (some v, some u)) ∧
    (∀ (svc : Service) (an repo br vp : String) (n : Nat) (ro : Repository)
       (bs : List Build),
       repo ≠ "" → svc.repoLookup repo = some ro → ro.id ≠ "" →
       svc.buildSearch (buildQueryFor ro.id br false n vp) = some ⟨bs⟩ →
       bs ≠ [] → an ≠ "" →
       (∀ b ∈ bs, b.id ≠ "" ∧ svc.artifactLookup b.id an = none) →
       (get_artifact_for_repo_and_branch svc an repo br false vp n).1 =
         Except.ok (none, none)) := by
  constructor
  · intro svc an repo br vp ip n p t h
    unfold get_artifact_for_repo_and_branch at h
    split at h
    · exact absurd h (by simp)
    · exact absurd h (by simp)
    · split at h
      · split at h
        · exact absurd h (by simp)
        · exact absurd h (by simp)
        · have hp := congrArg Prod.fst h
          dsimp only at hp
          exact search_ok_shape svc an _ _ _ _ _ p hp
      · have hp := congrArg Prod.fst h
        dsimp only at hp
        exact search_ok_shape svc an _ _ _ _ _ p hp
  · intro svc an repo br vp n ro bs hrepo hlook hid hbs hne han hall
    rw [resolver_nonpr svc an repo br vp n ro hrepo hlook]
    dsimp only
    rw [search_some_builds svc an ro.id br vp false n bs hid hbs hne]
    dsimp only
    rw [scan_all_none svc an han bs hall]

/-- Witness for `C3_result_shape`: artifact `X` is found on `b5` of `repoA`
(so the returned pair has both components), and artifact `Y` exists on no
build of `repoA` (so the resolver returns `(None, None)` without error). -/
theorem C3_witness :
    (((some "1.2.3", some "https://example.test/dl/X") :
        Option String × Option String) = (none, none) ∨
      ∃ v u, ((some "1.2.3", some "https://example.test/dl/X") :
        Option String × Option String) = (some v, some u)) ∧
    (get_artifact_for_repo_and_branch svcA "Y" "repoA" "main" false "*" 10).1 =
      Except.ok (none, none) := by
  constructor
  · exact C3_result_shape.1 svcA "X" "repoA" "main" "*" false 10
      (some "1.2.3", some "https://example.test/dl/X") traceC3 (by decide)
  · exact C3_result_shape.2 svcA "Y" "repoA" "main" "*" 10 ⟨"rid-1"⟩ buildsA
      (by decide) (by decide) (by decide) (by decide) (by decide) (by decide)
      (by decide)

/-- C4: a build search whose response contains zero builds makes the
resolver raise the no-builds error, while a window in which builds exist
but none has the artifact returns `(None, None)` without raising — the two
outcomes are distinguishable (an `Except.error` versus an `Except.ok`). -/
theorem C4_zero_builds_error :
    (∀ (svc : Service) (an repo br vp : String) (n : Nat) (ro : Repository),
       repo ≠ "" → svc.repoLookup repo = some ro → ro.id ≠ "" →
       svc.buildSearch (buildQueryFor ro.id br false n vp) = some ⟨[]⟩ →
       (get_artifact_for_repo_and_branch svc an repo br false vp n).1 =
         Except.error (.noBuilds br ro.id)) ∧
    (∀ (svc : Service) (an repo br vp : String) (n : Nat) (ro : Repository)
       (bs : List Build),
       repo ≠ "" → svc.repoLookup repo = some ro → ro.id ≠ "" →
       svc.buildSearch (buildQueryFor ro.id br false n vp) = some ⟨bs⟩ →
       bs ≠ [] → an ≠ "" →
       (∀ b ∈ bs, b.id ≠ "" ∧ svc.artifactLookup b.id an = none) →
       (get_artifact_for_repo_and_branch svc an repo br false vp n).1 =
         Except.ok (none, none)) := by
  constructor
  · intro svc an repo br vp n ro hrepo hlook hid hbs
    rw [resolver_nonpr svc an repo br vp n ro hrepo hlook]
    dsimp only
    rw [search_zero_builds svc an ro.id br vp false n hid hbs]
  · intro svc an repo br vp n ro bs hrepo hlook hid hbs hne han hall
    rw [resolver_nonpr svc an repo br vp n ro hrepo hlook]
    dsimp only
    rw [search_some_builds svc an ro.id br vp false n bs hid hbs hne]
    dsimp only
    rw [scan_all_none svc an han bs hall]

/-- Witness for `C4_zero_builds_error`: `repoB` matches zero builds and the
resolver errors; `repoA` has builds but none carries artifact `Z` and the
resolver returns `(None, None)`. -/
theorem C4_witness :
    (get_artifact_for_repo_and_branch svcA "X" "repoB" "main" false "*" 10).1 =
      Except.error (ApiError.noBuilds "main" "rid-2") ∧
    (get_artifact_for_repo_and_branch svcA "Z" "repoA" "main" false "*" 10).1 =
      Except.ok (none, none) :=
  ⟨C4_zero_builds_error.1 svcA "X" "repoB" "main" "*" 10 ⟨"rid-2"⟩
     (by decide) (by decide) (by decide) (by decide),
   C4_zero_builds_error.2 svcA "Z" "repoA" "main" "*" 10 ⟨"rid-1"⟩ buildsA
     (by decide) (by decide) (by decide) (by decide) (by decide) (by decide)
     (by decide)⟩

/-- C5: when the requested artifact exists on the build ranked
`pre.length + 1` and on no earlier-ranked build, the resolver returns
exactly that build's version (leading segment of its build number) paired
with the artifact's download URL, and the trace contains exactly
`pre.length + 1` artifact-existence calls — the scan stops at the first
match and never checks later builds. -/
theorem C5_early_exit (svc : Service) (an repo br vp : String) (n : Nat)
    (ro : Repository) (pre : List Build) (b : Build) (rest : List Build)
    (a : Artifact)
    (hrepo : repo ≠ "") (hlook : svc.repoLookup repo = some ro) (hid : ro.id ≠ "")
    (hbs : svc.buildSearch (buildQueryFor ro.id br false n vp) =
      some ⟨pre ++ b :: rest⟩)
    (hpre : ∀ b' ∈ pre, b'.id ≠ "" ∧ svc.artifactLookup b'.id an = none)
    (hb : b.id ≠ "") (han : an ≠ "")
    (hart : svc.artifactLookup b.id an = some a) :
    (get_artifact_for_repo_and_branch svc an repo br false vp n).1 =
      Except.ok (some (versionOfBuildNumber b.buildNumber),
                 some a.resource.downloadUrl) ∧
    countArtifactCalls
        (get_artifact_for_repo_and_branch svc an repo br false vp n).2 =
      pre.length + 1 := by
  have hscan := scan_first_match svc an b a han hb hart pre rest hpre
  rw [resolver_nonpr svc an repo br vp n ro hrepo hlook,
    search_some_builds svc an ro.id br vp false n (pre ++ b :: rest) hid hbs
      (by simp), hscan]
  dsimp only
  refine ⟨rfl, ?_⟩
  rw [countArtifactCalls_cons_other (ApiCall.repoByName repo) _ (by rfl),
    countArtifactCalls_cons_other
      (ApiCall.buildsSearch (buildQueryFor ro.id br false n vp)) _ (by rfl),
    countArtifactCalls_append, countArtifactCalls_map_details]
  rfl

/-- Witness for `C5_early_exit`: artifact `X` lives only on the fifth of
`repoA`'s ten ranked builds; the resolver returns its version `1.2.3` with
the download URL after exactly five artifact-existence calls. -/
theorem C5_witness :
    (get_artifact_for_repo_and_branch svcA "X" "repoA" "main" false "*" 10).1 =
      Except.ok (some "1.2.3", some "https://example.test/dl/X") ∧
    countArtifactCalls
        (get_artifact_for_repo_and_branch svcA "X" "repoA" "main" false "*" 10).2 =
      5 := by
  have h := C5_early_exit svcA "X" "repoA" "main" "*" 10 ⟨"rid-1"⟩
    [⟨"b1", "1.0.0-a1"⟩, ⟨"b2", "1.0.1-a2"⟩, ⟨"b3", "1.1.0-a3"⟩, ⟨"b4", "1.2.0-a4"⟩]
    ⟨"b5", "1.2.3-abcdef"⟩
    [⟨"b6", "1.2.4-a6"⟩, ⟨"b7", "1.3.0-a7"⟩, ⟨"b8", "1.3.1-a8"⟩,
     ⟨"b9", "1.4.0-a9"⟩, ⟨"b10", "1.5.0-b0"⟩]
    ⟨⟨"https://example.test/dl/X"⟩⟩
    (by decide) (by decide) (by decide) (by decide) (by decide) (by decide)
    (by decide) (by decide)
  exact ⟨h.1.trans (by decide), h.2.trans (by decide)⟩

/-- C6, as stated, is false of the code on its "service returns no match"
half: the repository lookup then hands `None` to the resolver, which
subscripts it (`repo_response_dict['id']`) — a `TypeError` on `None`, not a
typed "not found" failure.  Concretely, looking up the unknown repository
`ghost` raises the none-subscript error and no `ValueError` of any
message. -/
theorem C6_counterexample :
    (get_artifact_for_repo_and_branch svcA "X" "ghost" "main" false "*" 10).1 =
      Except.error ApiError.noneSubscript ∧
    ∀ m : String,
      (get_artifact_for_repo_and_branch svcA "X" "ghost" "main" false "*" 10).1 ≠
        Except.error (ApiError.valueError m) := by
  have h : (get_artifact_for_repo_and_branch svcA "X" "ghost" "main" false
      "*" 10).1 = Except.error ApiError.noneSubscript := by decide
  refine ⟨h, fun m hm => ?_⟩
  rw [h] at hm
  injection hm with h2
  exact ApiError.noConfusion h2

/-- C6 (amended): a resolver call with an empty repository name fails with
the `ValueError` of `get_repository_by_name` before any network call; a
repository name the service cannot match makes the resolver fail with the
none-subscript error (an untyped crash on the lookup's `None` result) after
exactly the one lookup call — not with a typed not-found error. -/
theorem C6_lookup_failures :
    (∀ (svc : Service) (an br vp : String) (ip : Bool) (n : Nat),
       get_artifact_for_repo_and_branch svc an "" br ip vp n =
         (.error (.valueError "Cannot get repository by name for - "), [])) ∧
    (∀ (svc : Service) (an repo br vp : String) (ip : Bool) (n : Nat),
       repo ≠ "" → svc.repoLookup repo = none →
       get_artifact_for_repo_and_branch svc an repo br ip vp n =
         (.error ApiError.noneSubscript, [ApiCall.repoByName repo])) := by
  constructor
  · intro svc an br vp ip n
    rfl
  · intro svc an repo br vp ip n hrepo hnone
    unfold get_artifact_for_repo_and_branch get_repository_by_name
    rw [if_neg hrepo, hnone]

/-- Witness for `C6_lookup_failures`: the empty repository name, and the
unknown repository `ghost2`. -/
theorem C6_witness :
    get_artifact_for_repo_and_branch svcA "X" "" "main" false "*" 10 =
      (.error (.valueError "Cannot get repository by name for - "), []) ∧
    get_artifact_for_repo_and_branch svcA "X" "ghost2" "main" false "*" 10 =
      (.error ApiError.noneSubscript, [ApiCall.repoByName "ghost2"]) :=
  ⟨C6_lookup_failures.1 svcA "X" "main" "*" false 10,
   C6_lookup_failures.2 svcA "X" "ghost2" "main" "*" false 10 (by decide)
     (by decide)⟩

theorem search_trace_decomp (svc : Service) (an repo_id br vp : String)
    (is_pr : Bool) (n : Nat) (hid : repo_id ≠ "") :
    ∃ tail, (searchBuildsAndScan svc an repo_id br is_pr vp n).2 =
        ApiCall.buildsSearch (buildQueryFor repo_id br is_pr n vp) :: tail ∧
      ∀ c ∈ tail, isArtifactCall c = true := by
  unfold searchBuildsAndScan get_top_n_builds_for_repo_and_branch
  rw [if_neg hid]
  cases svc.buildSearch (buildQueryFor repo_id br is_pr n vp) with
  | none =>
    exact ⟨[], rfl, by simp⟩
  | some res =>
    dsimp only
    by_cases hval : res.value = []
    · refine ⟨[], ?_, by simp⟩
      rw [if_pos hval]
    · refine ⟨(scanBuildsForArtifact svc an res.value).2, ?_,
        scan_trace_artifact_only svc an res.value⟩
      rw [if_neg hval]
      rfl

/-- C8: in PR mode, when the branch has an active pull request with id 42,
the one build search the resolver issues uses the branch reference
`refs/pull/42/merge` and the wildcard-only build-number filter `*` (empty
prefix), whatever `build_version_prefix` the caller supplied. -/
theorem C8_pr_build_search_params (svc : Service) (an repo br vp : String)
    (n : Nat) (ro : Repository) (pr : PullRequest) (prs : List PullRequest)
    (hrepo : repo ≠ "") (hlook : svc.repoLookup repo = some ro)
    (hbr : ¬ (br = "" ∨ br = "master")) (hid : ro.id ≠ "")
    (hpr : svc.prSearch ro.id ("refs/heads/" ++ br) = some ⟨pr :: prs⟩)
    (h42 : pr.pullRequestId = 42) :
    (∃ q, ApiCall.buildsSearch q ∈
        (get_artifact_for_repo_and_branch svc an repo br true vp n).2) ∧
    (∀ q, ApiCall.buildsSearch q ∈
        (get_artifact_for_repo_and_branch svc an repo br true vp n).2 →
      q.branchName = "refs/pull/42/merge" ∧ q.buildNumber = "*") := by
  have hmerge : ("refs/pull/" ++ toString pr.pullRequestId ++ "/merge") =
      "refs/pull/42/merge" := by
    rw [h42]
    decide
  rw [resolver_pr svc an repo br vp n ro pr prs hrepo hlook hbr hpr]
  dsimp only
  rw [hmerge]
  obtain ⟨tail, htail, hart⟩ :=
    search_trace_decomp svc an ro.id "refs/pull/42/merge" "" true n hid
  rw [htail]
  constructor
  · exact ⟨buildQueryFor ro.id "refs/pull/42/merge" true n "", by simp⟩
  · intro q hq
    simp only [List.mem_cons] at hq
    rcases hq with h | h | h | h
    · exact absurd h (by simp)
    · exact absurd h (by simp)
    · injection h with h0
      subst h0
      exact ⟨rfl, rfl⟩
    · have := hart _ h
      simp [isArtifactCall] at this

/-- Witness for `C8_pr_build_search_params`: branch `feature/x` of `repoA`
has the active PR 42; the caller supplies the non-empty prefix `9.9`, which
the PR path discards. -/
theorem C8_witness :
    (∃ q, ApiCall.buildsSearch q ∈
        (get_artifact_for_repo_and_branch svcA "X" "repoA" "feature/x" true
          "9.9" 10).2) ∧
    (∀ q, ApiCall.buildsSearch q ∈
        (get_artifact_for_repo_and_branch svcA "X" "repoA" "feature/x" true
          "9.9" 10).2 →
      q.branchName = "refs/pull/42/merge" ∧ q.buildNumber = "*") :=
  C8_pr_build_search_params svcA "X" "repoA" "feature/x" "9.9" 10 ⟨"rid-1"⟩
    ⟨42⟩ [] (by decide) (by decide) (by decide) (by decide) (by decide)
    (by decide)

theorem scan_empty_artifact_name (svc : Service) (b : Build) (rest : List Build)
    (hb : b.id ≠ "") :
    scanBuildsForArtifact svc "" (b :: rest) =
      (.error (.valueError ("Invalid artifact name - " ++ "")), []) := by
  simp only [scanBuildsForArtifact, get_artifact_details, if_neg hb]
  rfl

/-- C10, as stated, is false of the code on its resolver half: a resolver
call with an empty artifact name does not fail before any I/O — the
repository lookup and the build search are both issued first, and only the
per-build artifact call (`get_artifact_details`) rejects the empty name.
Concretely, resolving the empty artifact name against `repoA` ends in the
invalid-argument error, but the trace of issued network calls is not
empty. -/
theorem C10_counterexample :
    (get_artifact_for_repo_and_branch svcA "" "repoA" "main" false "*" 10).1 =
      Except.error (ApiError.valueError ("Invalid artifact name - " ++ "")) ∧
    (get_artifact_for_repo_and_branch svcA "" "repoA" "main" false "*" 10).2 ≠
      [] := by
  constructor
  · decide
  · decide

/-- C10 (amended): every operation validates its own empty-string required
argument with a `ValueError` and issues zero network calls itself —
repository name, PR-mode branch name, build id, artifact name, file path,
definition name — but the empty artifact name is only checked per build
inside the scan, so a resolver call with an empty artifact name issues the
repository lookup and the build search before failing. -/
theorem C10_validation :
    (∀ svc : Service,
       get_repository_by_name svc "" =
         (.error (.valueError "Cannot get repository by name for - "), [])) ∧
    (∀ (svc : Service) (rid : String),
       get_pull_request_id_by_branch svc rid "" =
         (.error (.valueError "invalid pr with source branch of "), [])) ∧
    (∀ (svc : Service) (an : String),
       get_artifact_details svc "" an =
         (.error (.valueError "Invalid build id - "), [])) ∧
    (∀ (svc : Service) (bid : String),
       (get_artifact_details svc bid "").2 = [] ∧
       ∃ m, (get_artifact_details svc bid "").1 =
         Except.error (ApiError.valueError m)) ∧
    (∀ (svc : Service) (rid br : String),
       read_file_from_repo svc rid "" br =
         (.error (.valueError "File path cannot be empty"), [])) ∧
    (∀ svc : Service,
       get_definition_by_name svc "" =
         (.error (.valueError "Definition name cannot be empty"), [])) ∧
    (∀ (svc : Service) (repo br vp : String) (n : Nat) (ro : Repository)
       (b : Build) (rest : List Build),
       repo ≠ "" → svc.repoLookup repo = some ro → ro.id ≠ "" →
       svc.buildSearch (buildQueryFor ro.id br false n vp) = some ⟨b :: rest⟩ →
       b.id ≠ "" →
       get_artifact_for_repo_and_branch svc "" repo br false vp n =
         (.error (.valueError ("Invalid artifact name - " ++ "")),
          [.repoByName repo,
           .buildsSearch (buildQueryFor ro.id br false n vp)])) := by
  refine ⟨fun svc => rfl, fun svc rid => rfl, fun svc an => rfl, ?_,
    fun svc rid br => rfl, fun svc => rfl, ?_⟩
  · intro svc bid
    by_cases hb : bid = ""
    · subst hb
      exact ⟨rfl, ⟨"Invalid build id - " ++ "", rfl⟩⟩
    · refine ⟨?_, ⟨"Invalid artifact name - " ++ "", ?_⟩⟩ <;>
        simp [get_artifact_details, hb]
  · intro svc repo br vp n ro b rest hrepo hlook hid hbs hb
    rw [resolver_nonpr svc "" repo br vp n ro hrepo hlook,
      search_some_builds svc "" ro.id br vp false n (b :: rest) hid hbs
        (by simp),
      scan_empty_artifact_name svc b rest hb]

/-- Witness for `C10_validation`: the empty repository name against the
concrete service, and the empty-artifact resolver call against `repoA`,
which fails only after the two searches ran. -/
theorem C10_witness :
    get_repository_by_name svcA "" =
      (.error (.valueError "Cannot get repository by name for - "), []) ∧
    get_artifact_for_repo_and_branch svcA "" "repoA" "main" false "*" 10 =
      (.error (.valueError ("Invalid artifact name - " ++ "")),
       [.repoByName "repoA",
        .buildsSearch (buildQueryFor "rid-1" "main" false 10 "*")]) :=
  ⟨C10_validation.1 svcA,
   C10_validation.2.2.2.2.2.2 svcA "repoA" "main" "*" 10 ⟨"rid-1"⟩
     ⟨"b1", "1.0.0-a1"⟩
     [⟨"b2", "1.0.1-a2"⟩, ⟨"b3", "1.1.0-a3"⟩, ⟨"b4", "1.2.0-a4"⟩,
      ⟨"b5", "1.2.3-abcdef"⟩, ⟨"b6", "1.2.4-a6"⟩, ⟨"b7", "1.3.0-a7"⟩,
      ⟨"b8", "1.3.1-a8"⟩, ⟨"b9", "1.4.0-a9"⟩, ⟨"b10", "1.5.0-b0"⟩]
     (by decide) (by decide) (by decide) (by decide) (by decide)⟩
